import Mathlib

/-!
# EdgeMesh control plane — shallow embedding and verification

This file embeds the connection-authorization pipeline of the EdgeMesh
control plane (`app/api/v1/connections.py`), the OPA policy client
(`app/services/opa_client.py`) and the entity records they touch
(`app/models/*.py`, `app/config.py`) as Lean definitions, and proves the
specified properties about them.

Conventions of the embedding:
* JSON values are modelled by the inductive `Json`; Python `dict.get`
  with a default is `dictGet`; Python truthiness is `truthy`.
* The network interaction of one `httpx` POST (including response-status
  checking and body parsing) is abstracted by `HttpOutcome`, chosen by
  the environment.  Python exceptions are the type `PyExc`; a Python
  call that may raise is an `Except PyExc` value.  `httpx`'s exception
  hierarchy is reflected in `isHttpxHTTPError`: `TimeoutException` and
  the transport/status errors are subclasses of `httpx.HTTPError`, while
  `json` decode errors and arbitrary other exceptions are not.
* Database rows are Lean structures; the store reached through the
  SQLAlchemy session is the structure `Store` of row lists, and each
  endpoint is a function from (store, request, environment) to
  (HTTP-level result, new store).
* Timestamps are integers (seconds); wall-clock reads (`datetime.now`
  calls) and the generated UUID are parameters supplied by the
  environment.
-/

namespace EdgeMesh

/-- JSON-like values as produced by `response.json()` and carried in the
policy documents.  Numbers are modelled as rationals. -/
inductive Json where
  | null : Json
  | bool (b : Bool) : Json
  | num (q : ℚ) : Json
  | str (s : String) : Json
  | arr (elems : List Json) : Json
  | obj (fields : List (String × Json)) : Json

/-- Python `v == s` for a string literal `s`: string equality when `v`
is a string, `False` for every other type. -/
def pyEqStr (v : Json) (s : String) : Bool :=
  match v with
  | .str t => t == s
  | _ => false

/-- Python truthiness of a JSON value (`bool(v)`). -/
def truthy : Json → Bool
  | .null => false
  | .bool b => b
  | .num q => decide (q ≠ 0)
  | .str s => s ≠ ""
  | .arr elems => !elems.isEmpty
  | .obj fields => !fields.isEmpty

/-- Python `d.get(key, default)` on a dict represented as an association
list (first binding wins, as in a dict literal with distinct keys). -/
def dictGet (fields : List (String × Json)) (key : String) (default : Json) : Json :=
  match fields.find? (fun p => p.1 == key) with
  | some p => p.2
  | none => default

/-- Python `key in d`. -/
def dictHasKey (fields : List (String × Json)) (key : String) : Bool :=
  (fields.find? (fun p => p.1 == key)).isSome

/-- The Python exceptions relevant to the OPA client code paths. -/
inductive PyExc where
  /-- Exception `httpx.TimeoutException` (a subclass of `httpx.HTTPError`). -/
  | timeoutExc : PyExc
  /-- any other `httpx.HTTPError` (transport errors such as
  `ConnectError`, and `HTTPStatusError` from `raise_for_status`),
  carrying its message `str(e)`. -/
  | httpError (msg : String) : PyExc
  /-- Exception `json.JSONDecodeError` from `response.json()` on a malformed body
  (not an `httpx.HTTPError`). -/
  | jsonDecodeError : PyExc
  /-- any other unexpected exception, e.g. `AttributeError` when calling
  `.get` on a non-dict (not an `httpx.HTTPError`). -/
  | otherExc : PyExc
deriving DecidableEq, Repr

/-- Whether an exception is an instance of `httpx.HTTPError` (the class
caught by `except httpx.HTTPError`). -/
def PyExc.isHttpxHTTPError : PyExc → Bool
  | .timeoutExc => true
  | .httpError _ => true
  | .jsonDecodeError => false
  | .otherExc => false

/-- The environment's choice of how one `httpx.AsyncClient.post` call
turns out, covering every failure mode of the remote policy call. -/
inductive HttpOutcome where
  /-- the POST returned a response; `statusOk` tells whether
  `raise_for_status()` passes (2xx), `statusText` is the message of the
  `HTTPStatusError` it would raise, and `body` is the parsed JSON body
  (`none` = malformed body, so `response.json()` raises). -/
  | response (statusOk : Bool) (statusText : String) (body : Option Json) : HttpOutcome
  /-- the POST raised `httpx.TimeoutException`. -/
  | raiseTimeout (msg : String) : HttpOutcome
  /-- the POST raised a non-timeout `httpx.HTTPError` (e.g. a
  connection error). -/
  | raiseConnect (msg : String) : HttpOutcome
  /-- the POST raised an exception outside the `httpx` hierarchy. -/
  | raiseOther (msg : String) : HttpOutcome

/-- The shared try-block prefix of both OPA client methods:
`await client.post(...)`, then `response.raise_for_status()`, then
`response.json()`.  Returns the parsed JSON body or the raised
exception. -/
def httpPostJson (o : HttpOutcome) : Except PyExc Json :=
  match o with
  | .raiseTimeout _ => .error .timeoutExc
  | .raiseConnect msg => .error (.httpError msg)
  | .raiseOther _ => .error .otherExc
  | .response statusOk statusText body =>
      if !statusOk then .error (.httpError statusText)
      else
        match body with
        | none => .error .jsonDecodeError
        | some j => .ok j

/-- Python `result.get(key, default)` where `result` is an arbitrary
parsed JSON value: raises `AttributeError` unless `result` is a dict. -/
def pyDictGet (j : Json) (key : String) (default : Json) : Except PyExc Json :=
  match j with
  | .obj fields => .ok (dictGet fields key default)
  | _ => .error .otherExc

/-- The try-block of `OPAClient.evaluate_policy`: POST the input, check
status, parse the body, read `result.get("result", False)` and build
`{"allowed": allowed, "decision": "allow" if allowed else "deny"}`. -/
def evaluatePolicyTry (o : HttpOutcome) : Except PyExc (List (String × Json)) := do
  let j ← httpPostJson o
  let allowed ← pyDictGet j "result" (.bool false)
  pure [("allowed", allowed),
        ("decision", .str (if truthy allowed then "allow" else "deny"))]

/-- Method `OPAClient.evaluate_policy(input_data)`: the try-block with the
handlers `except httpx.TimeoutException`, `except httpx.HTTPError`,
`except Exception` applied in order; each handler returns a fail-closed
deny dictionary.  The posted `input_data` does not influence which
 outcome the environment chooses, so it is an unused parameter. -/
def evaluatePolicy (input_data : Json) (o : HttpOutcome) :
    Except PyExc (List (String × Json)) :=
  match evaluatePolicyTry o with
  | .ok d => .ok d
  | .error .timeoutExc =>
      .ok [("allowed", .bool false), ("decision", .str "deny"),
           ("error", .str "Policy service timeout - access denied for safety")]
  | .error (.httpError msg) =>
      .ok [("allowed", .bool false), ("decision", .str "deny"),
           ("error", .str ("Policy service unavailable: " ++ msg))]
  | .error .jsonDecodeError =>
      .ok [("allowed", .bool false), ("decision", .str "deny"),
           ("error", .str "Policy evaluation failed")]
  | .error .otherExc =>
      .ok [("allowed", .bool false), ("decision", .str "deny"),
           ("error", .str "Policy evaluation failed")]

/-- The try-block of `OPAClient.check_device_compliance`: POST, check
status, parse, return `result.get("result", False)`. -/
def checkDeviceComplianceTry (o : HttpOutcome) : Except PyExc Json := do
  let j ← httpPostJson o
  pyDictGet j "result" (.bool false)

/-- Method `OPAClient.check_device_compliance(device_data)`: the try-block with
the single handler `except httpx.HTTPError`, which returns `False`;
exceptions outside the `httpx.HTTPError` hierarchy propagate to the
caller. -/
def checkDeviceCompliance (device_data : Json) (o : HttpOutcome) :
    Except PyExc Json :=
  match checkDeviceComplianceTry o with
  | .ok v => .ok v
  | .error e => if e.isHttpxHTTPError then .ok (.bool false) else .error e

/-- The failure modes of the policy call named by the specification:
timeout, connection/HTTP error, malformed response body, unexpected
exception.  The only non-failure outcome is a 2xx response with a
parseable body. -/
def opaFailure : HttpOutcome → Bool
  | .response statusOk _ body => !statusOk || body.isNone
  | _ => true

/-! ## Data model (`app/models`, `app/config.py`)

Only the columns read or written by the verified endpoints are carried;
server-side timestamp defaults are materialised at insert time from the
clock parameter. -/

/-- Configuration `Settings` from `app/config.py` — the fields relevant to the pipeline.
Defaults as in the source. -/
structure Settings where
  OPA_URL : String := "http://opa:8181"
  OPA_TIMEOUT : Int := 5
  HEALTH_CHECK_MAX_AGE_MINUTES : Int := 5

/-- The global `settings = Settings()` instance with all defaults. -/
def defaultSettings : Settings := {}

/-- Row of table `devices` (`app/models/device.py`): the endpoint reads
`device_id` and `status`. -/
structure Device where
  device_id : String
  device_type : String := "laptop"
  certificate_serial : String := ""
  status : String

/-- Row of table `users` as the connection endpoint reads it
(`user_id`, `email`, `role`) plus the `status` column it never reads. -/
structure User where
  user_id : String
  email : String
  role : String
  status : String

/-- Row of table `healthchecks` (`app/models/healthcheck.py`): the columns the
endpoint reads.  `reported_at` is seconds. -/
structure HealthCheck where
  device_id : String
  status : String := "healthy"
  cpu_usage : Option ℚ
  memory_usage : Option ℚ
  disk_usage : Option ℚ := none
  os_patches_current : Option Bool
  antivirus_enabled : Option Bool
  disk_encrypted : Option Bool
  reported_at : Int

/-- Row of table `connections` (`app/models/connection.py`). -/
structure Connection where
  connection_id : String
  device_id : String
  user_id : String
  service_name : String
  status : String
  established_at : Int
  terminated_at : Option Int

/-- Row of table `audit_logs` (`app/models/audit.py`).  `decision` is stored as the
value the handler assigns (a JSON value extracted from the policy
result). -/
structure AuditLog where
  event_type : String
  action : String
  decision : Json
  device_id : Option String
  user_id : Option String
  service_name : Option String
  reason : Option String := none
  policy_version : Option String
  extra_data : Option Json

/-- The relational store reached through the SQLAlchemy session: one
list of rows per table, in insertion order. -/
structure Store where
  devices : List Device
  users : List User
  healthchecks : List HealthCheck
  connections : List Connection
  audit_logs : List AuditLog

/-- Request schema `ConnectionRequest` (`app/schemas/connection.py`). -/
structure ConnectionRequest where
  device_id : String
  user_id : String
  service_name : String

/-- Response schema `ConnectionResponse` (`app/schemas/connection.py`). -/
structure ConnectionResponse where
  connection_id : String
  status : String
  service_name : String
  virtual_tunnel : Json

/-! ## Store queries -/

/-- Query `select(Device).where(Device.device_id == did)` +
`scalar_one_or_none()` (device_id is the primary key, so first match). -/
def findDevice (s : Store) (did : String) : Option Device :=
  s.devices.find? (fun d => d.device_id == did)

/-- Query `select(User).where(User.user_id == uid)` + `scalar_one_or_none()`. -/
def findUser (s : Store) (uid : String) : Option User :=
  s.users.find? (fun u => u.user_id == uid)

/-- Query `select(HealthCheck).where(device_id == did).order_by(desc(reported_at)).limit(1)`:
the most recently reported health check of the device (first row in
insertion order among ties). -/
def latestHealthCheck (s : Store) (did : String) : Option HealthCheck :=
  (s.healthchecks.filter (fun h => h.device_id == did)).foldl
    (fun best h =>
      match best with
      | none => some h
      | some b => if h.reported_at > b.reported_at then some h else some b)
    none

/-- Query `select(Connection).where(Connection.connection_id == cid)` +
`scalar_one_or_none()`. -/
def findConnection (s : Store) (cid : String) : Option Connection :=
  s.connections.find? (fun c => c.connection_id == cid)

/-! ## The connection-request endpoint (`app/api/v1/connections.py`) -/

/-- Python `x or False` on a nullable boolean column (both `None` and
`False` are falsy, so this is `getD false`). -/
def pyOrFalse (v : Option Bool) : Bool :=
  match v with
  | some b => b
  | none => false

/-- Python `x or 0.0` on a nullable float column (`None` and `0.0` both
yield `0.0`). -/
def pyOrZero (v : Option ℚ) : ℚ :=
  match v with
  | some q => q
  | none => 0

/-- The OPA input document built by `request_connection` (lines 94–119)
once all validation gates have passed.  `current_hour` and
`current_dow` come from the second `datetime.now(timezone.utc)` read. -/
def buildOpaInput (device : Device) (user : User) (healthcheck : HealthCheck)
    (req : ConnectionRequest) (current_hour current_dow : Int) : Json :=
  .obj [
    ("device", .obj [
      ("device_id", .str device.device_id),
      ("authenticated", .bool true),
      ("status", .str device.status),
      ("os_patches_current", .bool (pyOrFalse healthcheck.os_patches_current)),
      ("antivirus_enabled", .bool (pyOrFalse healthcheck.antivirus_enabled)),
      ("disk_encrypted", .bool (pyOrFalse healthcheck.disk_encrypted)),
      ("cpu_usage", .num (pyOrZero healthcheck.cpu_usage)),
      ("memory_usage", .num (pyOrZero healthcheck.memory_usage))]),
    ("user", .obj [
      ("user_id", .str user.user_id),
      ("email", .str user.email),
      ("role", .str user.role)]),
    ("service", .obj [
      ("name", .str req.service_name)]),
    ("time", .obj [
      ("hour", .num current_hour),
      ("day_of_week", .num current_dow)])]

/-- Line 130: `allowed = policy_result.get("allowed", policy_result.get("allow", False))`
(line 130). -/
def extractAllowed (policy_result : List (String × Json)) : Json :=
  dictGet policy_result "allowed" (dictGet policy_result "allow" (.bool false))

/-- Line 131: `decision = policy_result.get("decision", "allow" if allowed else "deny")`
(line 131). -/
def extractDecision (policy_result : List (String × Json)) : Json :=
  dictGet policy_result "decision"
    (.str (if truthy (extractAllowed policy_result) then "allow" else "deny"))

/-- The `AuditLog(...)` row constructed at lines 137–146. -/
def auditRow (req : ConnectionRequest) (policy_result : List (String × Json)) :
    AuditLog :=
  { event_type := "connection_request"
    action := "request_connection"
    device_id := some req.device_id
    user_id := some req.user_id
    service_name := some req.service_name
    decision := extractDecision policy_result
    policy_version := some "v1.0"
    extra_data := some (.obj [("opa_result", .obj policy_result)]) }

/-- The HTTP-level outcome of `request_connection`: an
`HTTPException(status_code, detail)`, a successful grant, or an
exception that escaped the handler. -/
inductive ReqOutcome where
  | httpError (status : Nat) (detail : String) : ReqOutcome
  | granted (resp : ConnectionResponse) : ReqOutcome
  | raisedExc (e : PyExc) : ReqOutcome

/-- Lines 127–185 of `request_connection`: decision extraction from the
policy result, audit write + commit, then either the 403 deny or the
Connection insert + grant response.  `fresh_cid` is the generated
`uuid.uuid4()`; `now` materialises the server-side
`established_at` default. -/
def requestConnectionFinish (s : Store) (req : ConnectionRequest)
    (policy_result : List (String × Json)) (fresh_cid : String) (now : Int) :
    ReqOutcome × Store :=
  let decision := extractDecision policy_result
  let s1 := { s with audit_logs := s.audit_logs ++ [auditRow req policy_result] }
  if pyEqStr decision "deny" then
    (.httpError 403 "Access denied by policy", s1)
  else
    let conn : Connection :=
      { connection_id := fresh_cid
        device_id := req.device_id
        user_id := req.user_id
        service_name := req.service_name
        status := "established"
        established_at := now
        terminated_at := none }
    let s2 := { s1 with connections := s1.connections ++ [conn] }
    (.granted
      { connection_id := fresh_cid
        status := "authorized"
        service_name := req.service_name
        virtual_tunnel := .obj [
          ("type", .str "wireguard"),
          ("endpoint", .str ("wg://" ++ req.service_name ++ ".edgemesh.local")),
          ("public_key", .str "mock-public-key"),
          ("allowed_ips", .arr [.str "10.0.0.0/8"])] },
      s2)

/-- Endpoint `request_connection` (lines 46–185).  Parameters supplied by the
environment: `now` — the first `datetime.now(timezone.utc)` read used
for the freshness check (also used for inserted rows' server-default
timestamps); `current_hour`, `current_dow` — hour and ISO weekday of
the second clock read; `o` — how the OPA HTTP call turns out;
`fresh_cid` — the generated UUID.  Returns the HTTP outcome and the
resulting store. -/
def requestConnection (s : Store) (req : ConnectionRequest) (now : Int)
    (current_hour current_dow : Int) (o : HttpOutcome) (fresh_cid : String) :
    ReqOutcome × Store :=
  match findDevice s req.device_id with
  | none => (.httpError 404 "Device not found", s)
  | some device =>
    if device.status != "active" then
      (.httpError 403 "Device is not active", s)
    else
      match findUser s req.user_id with
      | none => (.httpError 404 "User not found", s)
      | some user =>
        match latestHealthCheck s req.device_id with
        | none => (.httpError 503 "No health check data available for device", s)
        | some healthcheck =>
          if now - healthcheck.reported_at > 5 * 60 then
            (.httpError 503 "Health check data is stale (older than 5 minutes)", s)
          else
            let opa_input := buildOpaInput device user healthcheck req
              current_hour current_dow
            match evaluatePolicy opa_input o with
            | .error e => (.raisedExc e, s)
            | .ok policy_result =>
                requestConnectionFinish s req policy_result fresh_cid now

/-- All five validation gates of `request_connection` pass. -/
def gatesPass (s : Store) (req : ConnectionRequest) (now : Int) : Bool :=
  match findDevice s req.device_id, latestHealthCheck s req.device_id with
  | some device, some healthcheck =>
      device.status == "active" && (findUser s req.user_id).isSome &&
        decide (now - healthcheck.reported_at ≤ 5 * 60)
  | _, _ => false

/-! ## The termination endpoint -/

/-- The HTTP-level outcome of `terminate_connection`. -/
inductive TermOutcome where
  | httpError (status : Nat) (detail : String) : TermOutcome
  | ok (message : String) (connection_id : String) : TermOutcome

/-- Endpoint `terminate_connection` (lines 226–272): 404 when the connection is
absent, 400 when already terminated, otherwise set `status` to
`"terminated"` and `terminated_at` to the current time and commit. -/
def terminateConnection (s : Store) (connection_id : String) (now : Int) :
    TermOutcome × Store :=
  match findConnection s connection_id with
  | none => (.httpError 404 "Connection not found", s)
  | some connection =>
    if connection.status == "terminated" then
      (.httpError 400 "Connection already terminated", s)
    else
      (.ok "Connection terminated" connection_id,
       { s with connections := s.connections.map (fun c =>
           if c.connection_id == connection_id then
             { c with status := "terminated", terminated_at := some now }
           else c) })

/-! ## Helper lemmas -/

/-- When the key is present, `dict.get key default` does not depend on
the default. -/
theorem dictGet_default_irrel (fields : List (String × Json)) (key : String)
    (h : dictHasKey fields key = true) (d d' : Json) :
    dictGet fields key d = dictGet fields key d' := by
  unfold dictHasKey at h
  unfold dictGet
  cases hf : fields.find? (fun p => p.1 == key) with
  | none => rw [hf] at h; simp at h
  | some p => rfl

/-- When the key is absent, `dict.get key default` is the default. -/
theorem dictGet_of_not_hasKey (fields : List (String × Json)) (key : String)
    (h : dictHasKey fields key = false) (d : Json) :
    dictGet fields key d = d := by
  unfold dictHasKey at h
  unfold dictGet
  cases hf : fields.find? (fun p => p.1 == key) with
  | none => rfl
  | some p => rw [hf] at h; simp at h

/-- Case analysis of `evaluate_policy`: it never propagates an
exception, and on every outcome other than a 2xx response with a
parseable dict body it returns a fail-closed deny dictionary carrying
an error description. -/
theorem evaluatePolicy_failure_deny (input : Json) (o : HttpOutcome)
    (h : opaFailure o = true) :
    ∃ err, evaluatePolicy input o =
      .ok [("allowed", .bool false), ("decision", .str "deny"),
           ("error", .str err)] := by
  cases o with
  | raiseTimeout m => exact ⟨_, rfl⟩
  | raiseConnect m => exact ⟨_, rfl⟩
  | raiseOther m => exact ⟨_, rfl⟩
  | response statusOk st body =>
    cases statusOk with
    | false => exact ⟨_, rfl⟩
    | true =>
      cases body with
      | none => exact ⟨_, rfl⟩
      | some j => simp [opaFailure] at h

/-- Method `evaluate_policy` always returns a dictionary, never an
exception. -/
theorem evaluatePolicy_total (input : Json) (o : HttpOutcome) :
    ∃ pr, evaluatePolicy input o = .ok pr := by
  cases o with
  | raiseTimeout m => exact ⟨_, rfl⟩
  | raiseConnect m => exact ⟨_, rfl⟩
  | raiseOther m => exact ⟨_, rfl⟩
  | response statusOk st body =>
    cases statusOk with
    | false => exact ⟨_, rfl⟩
    | true =>
      cases body with
      | none => exact ⟨_, rfl⟩
      | some j =>
        cases j with
        | null => exact ⟨_, rfl⟩
        | bool b => exact ⟨_, rfl⟩
        | num q => exact ⟨_, rfl⟩
        | str s => exact ⟨_, rfl⟩
        | arr elems => exact ⟨_, rfl⟩
        | obj fields => exact ⟨_, rfl⟩

/-! ## Claim C10 -/

/-- C10: on every execution path, `OPAClient.evaluate_policy` returns a
dictionary containing both an `allowed` and a `decision` key, with
`decision = "allow"` exactly when `allowed` is truthy and `"deny"`
otherwise; on the success path `allowed` is the response's `result`
field, defaulting to `False` when absent. -/
theorem evaluatePolicy_result_shape (input : Json) (o : HttpOutcome) :
    ∃ pr, evaluatePolicy input o = .ok pr ∧
      dictHasKey pr "allowed" = true ∧
      dictHasKey pr "decision" = true ∧
      dictGet pr "decision" .null =
        .str (if truthy (dictGet pr "allowed" .null) then "allow" else "deny") ∧
      (∀ st fields, o = .response true st (some (.obj fields)) →
        dictGet pr "allowed" .null = dictGet fields "result" (.bool false)) := by
  cases o with
  | raiseTimeout m =>
    exact ⟨_, rfl, rfl, rfl, rfl, by intro st fields h; cases h⟩
  | raiseConnect m =>
    exact ⟨_, rfl, rfl, rfl, rfl, by intro st fields h; cases h⟩
  | raiseOther m =>
    exact ⟨_, rfl, rfl, rfl, rfl, by intro st fields h; cases h⟩
  | response statusOk st body =>
    cases statusOk with
    | false =>
      exact ⟨_, rfl, rfl, rfl, rfl, by intro st' fields h; simp at h⟩
    | true =>
      cases body with
      | none =>
        exact ⟨_, rfl, rfl, rfl, rfl, by intro st' fields h; simp at h⟩
      | some j =>
        cases j with
        | null => exact ⟨_, rfl, rfl, rfl, rfl, by intro st' fields h; simp at h⟩
        | bool b => exact ⟨_, rfl, rfl, rfl, rfl, by intro st' fields h; simp at h⟩
        | num q => exact ⟨_, rfl, rfl, rfl, rfl, by intro st' fields h; simp at h⟩
        | str s => exact ⟨_, rfl, rfl, rfl, rfl, by intro st' fields h; simp at h⟩
        | arr elems => exact ⟨_, rfl, rfl, rfl, rfl, by intro st' fields h; simp at h⟩
        | obj fields =>
          refine ⟨_, rfl, rfl, rfl, rfl, ?_⟩
          intro st' fields' h
          have : fields = fields' := by
            injection h with h1 h2 h3
            injection h3 with h4
            injection h4
          subst this
          rfl

/-- C10 witness: the shape property evaluated at a concrete successful
response. -/
theorem evaluatePolicy_result_shape_witness :
    ∃ pr, evaluatePolicy .null
        (.response true "OK" (some (.obj [("result", .bool true)]))) = .ok pr ∧
      dictHasKey pr "allowed" = true ∧
      dictHasKey pr "decision" = true ∧
      dictGet pr "decision" .null =
        .str (if truthy (dictGet pr "allowed" .null) then "allow" else "deny") ∧
      (∀ st fields,
        (HttpOutcome.response true "OK" (some (.obj [("result", .bool true)]))) =
          .response true st (some (.obj fields)) →
        dictGet pr "allowed" .null = dictGet fields "result" (.bool false)) :=
  evaluatePolicy_result_shape .null
    (.response true "OK" (some (.obj [("result", .bool true)])))

/-! ## Claim C8 (corrected) -/

/-- The claim C8 as stated: `check_device_compliance` returns `False`
and never raises, on every failure mode of the remote call. -/
def complianceFailClosedTotal : Prop :=
  ∀ (device_data : Json) (o : HttpOutcome), opaFailure o = true →
    checkDeviceCompliance device_data o = .ok (.bool false)

/-- C8 counterexample: a 2xx response whose body is malformed JSON makes
`check_device_compliance` raise `json.JSONDecodeError` to its caller
(only `httpx.HTTPError` is caught), so the claimed total fail-closed
contract is false. -/
theorem checkDeviceCompliance_raises_on_malformed_body :
    checkDeviceCompliance (.obj []) (.response true "OK" none) =
      .error .jsonDecodeError ∧
    opaFailure (.response true "OK" none) = true ∧
    ¬ complianceFailClosedTotal := by
  refine ⟨rfl, rfl, fun h => ?_⟩
  have hc := h (.obj []) (.response true "OK" none) rfl
  exact Except.noConfusion hc

/-- C8 (amended): `check_device_compliance` fails closed (returns
`False`, no exception) for timeouts, connection errors and HTTP status
errors — the `httpx.HTTPError` hierarchy — but a malformed response
body raises `json.JSONDecodeError` and an exception outside the
`httpx` hierarchy propagates unchanged. -/
theorem checkDeviceCompliance_fail_closed_partial (device_data : Json) :
    (∀ msg, checkDeviceCompliance device_data (.raiseTimeout msg) =
      .ok (.bool false)) ∧
    (∀ msg, checkDeviceCompliance device_data (.raiseConnect msg) =
      .ok (.bool false)) ∧
    (∀ st body, checkDeviceCompliance device_data (.response false st body) =
      .ok (.bool false)) ∧
    (∀ st, checkDeviceCompliance device_data (.response true st none) =
      .error .jsonDecodeError) ∧
    (∀ msg, checkDeviceCompliance device_data (.raiseOther msg) =
      .error .otherExc) :=
  ⟨fun _ => rfl, fun _ => rfl, fun _ _ => rfl, fun _ => rfl, fun _ => rfl⟩

/-! ## Claim C7 -/

/-- C7: decision extraction is backward compatible across the two wire
shapes.  The legacy payload and the current payload both produce an
authorized grant, the `allowed` flag is read from `allowed` when
present, else from the legacy `allow` field, else `False`, and the
decision string is read from an explicit `decision` field when present,
else derived from the boolean. -/
theorem decision_extraction_backcompat (s : Store) (req : ConnectionRequest)
    (cid : String) (now : Int) :
    (∃ resp, (requestConnectionFinish s req [("allow", .bool true)] cid now).1 =
        .granted resp ∧ resp.status = "authorized") ∧
    (∃ resp, (requestConnectionFinish s req
        [("allowed", .bool true), ("decision", .str "allow")] cid now).1 =
        .granted resp ∧ resp.status = "authorized") ∧
    (∀ pr, dictHasKey pr "allowed" = true →
      extractAllowed pr = dictGet pr "allowed" .null) ∧
    (∀ pr, dictHasKey pr "allowed" = false → dictHasKey pr "allow" = true →
      extractAllowed pr = dictGet pr "allow" .null) ∧
    (∀ pr, dictHasKey pr "allowed" = false → dictHasKey pr "allow" = false →
      extractAllowed pr = .bool false) ∧
    (∀ pr, dictHasKey pr "decision" = true →
      extractDecision pr = dictGet pr "decision" .null) ∧
    (∀ pr, dictHasKey pr "decision" = false →
      extractDecision pr =
        .str (if truthy (extractAllowed pr) then "allow" else "deny")) := by
  refine ⟨⟨_, rfl, rfl⟩, ⟨_, rfl, rfl⟩, ?_, ?_, ?_, ?_, ?_⟩
  · intro pr h
    exact dictGet_default_irrel pr "allowed" h _ _
  · intro pr h1 h2
    unfold extractAllowed
    rw [dictGet_of_not_hasKey pr "allowed" h1]
    exact dictGet_default_irrel pr "allow" h2 _ _
  · intro pr h1 h2
    unfold extractAllowed
    rw [dictGet_of_not_hasKey pr "allowed" h1, dictGet_of_not_hasKey pr "allow" h2]
  · intro pr h
    exact dictGet_default_irrel pr "decision" h _ _
  · intro pr h
    unfold extractDecision
    rw [dictGet_of_not_hasKey pr "decision" h]

/-- C7 witness: the extraction rules evaluated at concrete payloads. -/
theorem decision_extraction_backcompat_witness :
    (∃ resp, (requestConnectionFinish
        { devices := [], users := [], healthchecks := [], connections := [],
          audit_logs := [] }
        { device_id := "d1", user_id := "u1", service_name := "db" }
        [("allow", .bool true)] "c1" 0).1 =
        .granted resp ∧ resp.status = "authorized") ∧
    extractAllowed [("allowed", .bool false), ("allow", .bool true)] =
      .bool false ∧
    extractAllowed [("allow", .bool true)] = .bool true ∧
    extractAllowed [] = .bool false ∧
    extractDecision [("decision", .str "allow")] = .str "allow" ∧
    extractDecision [("allowed", .bool true)] = .str "allow" := by
  have h := decision_extraction_backcompat
    { devices := [], users := [], healthchecks := [], connections := [],
      audit_logs := [] }
    { device_id := "d1", user_id := "u1", service_name := "db" } "c1" 0
  refine ⟨h.1, ?_, ?_, ?_, ?_, ?_⟩
  · rw [h.2.2.1 [("allowed", .bool false), ("allow", .bool true)] rfl]; rfl
  · rw [h.2.2.2.1 [("allow", .bool true)] rfl rfl]; rfl
  · exact h.2.2.2.2.1 [] rfl rfl
  · rw [h.2.2.2.2.2.1 [("decision", .str "allow")] rfl]; rfl
  · rw [h.2.2.2.2.2.2 [("allowed", .bool true)] rfl]; rfl

/-! ## Pipeline lemmas -/

/-- Unpacking `gatesPass`: all five validation gates in terms of the
store queries. -/
theorem gatesPass_elim (s : Store) (req : ConnectionRequest) (now : Int)
    (h : gatesPass s req now = true) :
    ∃ device user healthcheck,
      findDevice s req.device_id = some device ∧
      device.status = "active" ∧
      findUser s req.user_id = some user ∧
      latestHealthCheck s req.device_id = some healthcheck ∧
      now - healthcheck.reported_at ≤ 5 * 60 := by
  unfold gatesPass at h
  cases hd : findDevice s req.device_id with
  | none => rw [hd] at h; cases h
  | some device =>
    rw [hd] at h
    cases hhc : latestHealthCheck s req.device_id with
    | none => rw [hhc] at h; cases h
    | some healthcheck =>
      rw [hhc] at h
      simp only [Bool.and_eq_true, beq_iff_eq, decide_eq_true_eq,
        Option.isSome_iff_exists] at h
      obtain ⟨⟨hstat, user, hu⟩, hfresh⟩ := h
      exact ⟨device, user, healthcheck, rfl, hstat, hu, rfl, hfresh⟩

/-- When all five gates pass, `request_connection` runs the policy call
on the built input document and continues with the post-policy code. -/
theorem requestConnection_run (s : Store) (req : ConnectionRequest)
    (now current_hour current_dow : Int) (o : HttpOutcome) (cid : String)
    (device : Device) (user : User) (healthcheck : HealthCheck)
    (hd : findDevice s req.device_id = some device)
    (hstat : device.status = "active")
    (hu : findUser s req.user_id = some user)
    (hhc : latestHealthCheck s req.device_id = some healthcheck)
    (hfresh : ¬ now - healthcheck.reported_at > 5 * 60) :
    requestConnection s req now current_hour current_dow o cid =
      match evaluatePolicy
          (buildOpaInput device user healthcheck req current_hour current_dow) o with
      | .error e => (.raisedExc e, s)
      | .ok pr => requestConnectionFinish s req pr cid now := by
  unfold requestConnection
  simp only [hd, hu, hhc]
  rw [if_neg (by simp [hstat]), if_neg hfresh]

/-- After the policy call, `request_connection` either denies with 403
or grants; in both cases exactly the audit row is appended, and in the
deny case no connection is inserted. -/
theorem requestConnectionFinish_cases (s : Store) (req : ConnectionRequest)
    (pr : List (String × Json)) (cid : String) (now : Int) :
    ((requestConnectionFinish s req pr cid now).1 =
        .httpError 403 "Access denied by policy" ∧
      (requestConnectionFinish s req pr cid now).2.connections = s.connections ∨
     ∃ resp, (requestConnectionFinish s req pr cid now).1 = .granted resp ∧
      resp.status = "authorized") ∧
    (requestConnectionFinish s req pr cid now).2.audit_logs =
      s.audit_logs ++ [auditRow req pr] := by
  cases hden : pyEqStr (extractDecision pr) "deny" with
  | true =>
    refine ⟨Or.inl ⟨?_, ?_⟩, ?_⟩ <;> simp [requestConnectionFinish, hden]
  | false =>
    have h1 : (requestConnectionFinish s req pr cid now).1 =
        .granted
          { connection_id := cid, status := "authorized",
            service_name := req.service_name,
            virtual_tunnel := .obj [
              ("type", .str "wireguard"),
              ("endpoint", .str ("wg://" ++ req.service_name ++ ".edgemesh.local")),
              ("public_key", .str "mock-public-key"),
              ("allowed_ips", .arr [.str "10.0.0.0/8"])] } := by
      simp [requestConnectionFinish, hden]
    refine ⟨Or.inr ⟨_, h1, rfl⟩, ?_⟩
    simp [requestConnectionFinish, hden]

/-- When some gate fails, the outcome is a single HTTP error that does
not depend on the policy-call outcome, and the store is unchanged. -/
theorem requestConnection_gate_failure (s : Store) (req : ConnectionRequest)
    (now current_hour current_dow : Int) (cid : String)
    (h : gatesPass s req now = false) :
    ∃ status detail, ∀ o,
      requestConnection s req now current_hour current_dow o cid =
        (.httpError status detail, s) := by
  cases hd : findDevice s req.device_id with
  | none =>
    refine ⟨404, "Device not found", fun o => ?_⟩
    unfold requestConnection
    simp only [hd]
  | some device =>
    cases hstat : device.status == "active" with
    | false =>
      refine ⟨403, "Device is not active", fun o => ?_⟩
      unfold requestConnection
      simp only [hd]
      rw [if_pos (by simp [bne, hstat])]
    | true =>
      cases hu : findUser s req.user_id with
      | none =>
        refine ⟨404, "User not found", fun o => ?_⟩
        unfold requestConnection
        simp only [hd, hu]
        rw [if_neg (by simp [bne, hstat])]
      | some user =>
        cases hhc : latestHealthCheck s req.device_id with
        | none =>
          refine ⟨503, "No health check data available for device", fun o => ?_⟩
          unfold requestConnection
          simp only [hd, hu, hhc]
          rw [if_neg (by simp [bne, hstat])]
        | some healthcheck =>
          by_cases hfresh : now - healthcheck.reported_at > 5 * 60
          · refine ⟨503, "Health check data is stale (older than 5 minutes)",
              fun o => ?_⟩
            unfold requestConnection
            simp only [hd, hu, hhc]
            rw [if_neg (by simp [bne, hstat]), if_pos hfresh]
          · exfalso
            unfold gatesPass at h
            rw [hd, hhc] at h
            simp [hstat, hu] at h
            omega

/-! ## Claim C1 -/

/-- C1: for every input document and every failure mode of the policy
call, `evaluate_policy` returns a deny result (`allowed = False`,
`decision = "deny"`, with an error description) and never raises; under
any such failure a gates-passing `request_connection` returns the 403
policy-deny outcome and creates no Connection row. -/
theorem policy_failure_fail_closed (input : Json) (o : HttpOutcome)
    (hfail : opaFailure o = true) (s : Store) (req : ConnectionRequest)
    (now current_hour current_dow : Int) (cid : String)
    (hg : gatesPass s req now = true) :
    (∃ err, evaluatePolicy input o =
      .ok [("allowed", .bool false), ("decision", .str "deny"),
           ("error", .str err)]) ∧
    (requestConnection s req now current_hour current_dow o cid).1 =
      .httpError 403 "Access denied by policy" ∧
    ((requestConnection s req now current_hour current_dow o cid).2).connections =
      s.connections := by
  obtain ⟨device, user, healthcheck, hd, hstat, hu, hhc, hfresh⟩ :=
    gatesPass_elim s req now hg
  have hrun := requestConnection_run s req now current_hour current_dow o cid
    device user healthcheck hd hstat hu hhc (by omega)
  obtain ⟨err, hev⟩ := evaluatePolicy_failure_deny
    (buildOpaInput device user healthcheck req current_hour current_dow) o hfail
  rw [hev] at hrun
  refine ⟨evaluatePolicy_failure_deny input o hfail, ?_, ?_⟩ <;> rw [hrun] <;> rfl

/-! ## Claim C2 -/

/-- C2: the five validation stages run in the fixed order
device-existence, device-active, user-existence, health-presence,
health-freshness; the first failing stage short-circuits with its own
error and an unchanged store; in particular a request whose device id
and user id are both absent fails with 404 "Device not found", never
user-not-found. -/
theorem gate_order_short_circuit :
    (∀ (s : Store) (req : ConnectionRequest) (now ch cd : Int)
       (o : HttpOutcome) (cid : String),
      findDevice s req.device_id = none →
      requestConnection s req now ch cd o cid =
        (.httpError 404 "Device not found", s)) ∧
    (∀ s req now ch cd o cid device,
      findDevice s req.device_id = some device → device.status ≠ "active" →
      requestConnection s req now ch cd o cid =
        (.httpError 403 "Device is not active", s)) ∧
    (∀ s req now ch cd o cid device,
      findDevice s req.device_id = some device → device.status = "active" →
      findUser s req.user_id = none →
      requestConnection s req now ch cd o cid =
        (.httpError 404 "User not found", s)) ∧
    (∀ s req now ch cd o cid device user,
      findDevice s req.device_id = some device → device.status = "active" →
      findUser s req.user_id = some user →
      latestHealthCheck s req.device_id = none →
      requestConnection s req now ch cd o cid =
        (.httpError 503 "No health check data available for device", s)) ∧
    (∀ s req now ch cd o cid device user healthcheck,
      findDevice s req.device_id = some device → device.status = "active" →
      findUser s req.user_id = some user →
      latestHealthCheck s req.device_id = some healthcheck →
      now - healthcheck.reported_at > 5 * 60 →
      requestConnection s req now ch cd o cid =
        (.httpError 503 "Health check data is stale (older than 5 minutes)", s)) ∧
    (∀ s req now ch cd o cid,
      findDevice s req.device_id = none → findUser s req.user_id = none →
      (requestConnection s req now ch cd o cid).1 =
        .httpError 404 "Device not found") := by
  refine ⟨?_, ?_, ?_, ?_, ?_, ?_⟩
  · intro s req now ch cd o cid hd
    unfold requestConnection
    simp only [hd]
  · intro s req now ch cd o cid device hd hstat
    unfold requestConnection
    simp only [hd]
    rw [if_pos (by simp [bne_iff_ne]; exact hstat)]
  · intro s req now ch cd o cid device hd hstat hu
    unfold requestConnection
    simp only [hd, hu]
    rw [if_neg (by simp [hstat])]
  · intro s req now ch cd o cid device user hd hstat hu hhc
    unfold requestConnection
    simp only [hd, hu, hhc]
    rw [if_neg (by simp [hstat])]
  · intro s req now ch cd o cid device user healthcheck hd hstat hu hhc hstale
    unfold requestConnection
    simp only [hd, hu, hhc]
    rw [if_neg (by simp [hstat]), if_pos hstale]
  · intro s req now ch cd o cid hd _
    unfold requestConnection
    simp only [hd]

/-! ## Claim C5 -/

/-- C5: when any of the five validation gates fails, the request makes
no policy call (the result does not depend on the policy-call outcome),
writes no AuditLog row, creates no Connection row, and surfaces an HTTP
error with the store unchanged. -/
theorem gate_failure_no_side_effects (s : Store) (req : ConnectionRequest)
    (now current_hour current_dow : Int) (cid : String)
    (h : gatesPass s req now = false) :
    (∀ o o', requestConnection s req now current_hour current_dow o cid =
      requestConnection s req now current_hour current_dow o' cid) ∧
    (∀ o, (requestConnection s req now current_hour current_dow o cid).2 = s) ∧
    (∀ o, ∃ status detail,
      (requestConnection s req now current_hour current_dow o cid).1 =
        .httpError status detail) := by
  obtain ⟨status, detail, hall⟩ :=
    requestConnection_gate_failure s req now current_hour current_dow cid h
  refine ⟨fun o o' => ?_, fun o => ?_, fun o => ⟨status, detail, ?_⟩⟩
  · rw [hall o, hall o']
  · rw [hall o]
  · rw [hall o]

/-- When the first four gates pass but the health data is stale, the
request is rejected with the stale 503 and the store is unchanged. -/
theorem requestConnection_stale (s : Store) (req : ConnectionRequest)
    (now current_hour current_dow : Int) (o : HttpOutcome) (cid : String)
    (device : Device) (user : User) (healthcheck : HealthCheck)
    (hd : findDevice s req.device_id = some device)
    (hstat : device.status = "active")
    (hu : findUser s req.user_id = some user)
    (hhc : latestHealthCheck s req.device_id = some healthcheck)
    (hstale : now - healthcheck.reported_at > 5 * 60) :
    requestConnection s req now current_hour current_dow o cid =
      (.httpError 503 "Health check data is stale (older than 5 minutes)", s) := by
  unfold requestConnection
  simp only [hd, hu, hhc]
  rw [if_neg (by simp [hstat]), if_pos hstale]

/-! ## Claim C4 -/

/-- C4: every request that reaches policy evaluation writes exactly one
AuditLog row — for allow and deny alike — carrying event type
"connection_request", action "request_connection", the device id, user
id, service name, the derived decision, the fixed policy-version tag
"v1.0" and the raw policy response as extra data; the row is in the
committed store on both the 403 and the grant response. -/
theorem audit_written_exactly_once (s : Store) (req : ConnectionRequest)
    (now current_hour current_dow : Int) (o : HttpOutcome) (cid : String)
    (hg : gatesPass s req now = true) :
    ∃ device user healthcheck pr,
      findDevice s req.device_id = some device ∧
      findUser s req.user_id = some user ∧
      latestHealthCheck s req.device_id = some healthcheck ∧
      evaluatePolicy
        (buildOpaInput device user healthcheck req current_hour current_dow) o =
        .ok pr ∧
      ((requestConnection s req now current_hour current_dow o cid).2).audit_logs =
        s.audit_logs ++ [auditRow req pr] ∧
      auditRow req pr =
        { event_type := "connection_request"
          action := "request_connection"
          decision := extractDecision pr
          device_id := some req.device_id
          user_id := some req.user_id
          service_name := some req.service_name
          reason := none
          policy_version := some "v1.0"
          extra_data := some (.obj [("opa_result", .obj pr)]) } ∧
      ((requestConnection s req now current_hour current_dow o cid).1 =
          .httpError 403 "Access denied by policy" ∨
        ∃ resp, (requestConnection s req now current_hour current_dow o cid).1 =
          .granted resp ∧ resp.status = "authorized") := by
  obtain ⟨device, user, healthcheck, hd, hstat, hu, hhc, hfresh⟩ :=
    gatesPass_elim s req now hg
  obtain ⟨pr, hev⟩ := evaluatePolicy_total
    (buildOpaInput device user healthcheck req current_hour current_dow) o
  have hrun := requestConnection_run s req now current_hour current_dow o cid
    device user healthcheck hd hstat hu hhc (by omega)
  rw [hev] at hrun
  obtain ⟨hout, haud⟩ := requestConnectionFinish_cases s req pr cid now
  refine ⟨device, user, healthcheck, pr, hd, hu, hhc, hev, ?_, rfl, ?_⟩
  · rw [hrun]; exact haud
  · rw [hrun]
    rcases hout with ⟨h403, _⟩ | ⟨resp, hresp, hauth⟩
    · exact Or.inl h403
    · exact Or.inr ⟨resp, hresp, hauth⟩

/-! ## Claim C3 (corrected) -/

/-- The freshness gate as the claim states it: after the earlier gates
pass, the request is rejected as stale exactly when the age exceeds the
configured maximum (`HEALTH_CHECK_MAX_AGE_MINUTES`), for every settings
value.  Written from the specification for comparison with the code. -/
def freshnessUsesConfiguredMax : Prop :=
  ∀ (st : Settings) (s : Store) (req : ConnectionRequest)
    (now current_hour current_dow : Int) (o : HttpOutcome) (cid : String)
    (device : Device) (user : User) (healthcheck : HealthCheck),
    findDevice s req.device_id = some device → device.status = "active" →
    findUser s req.user_id = some user →
    latestHealthCheck s req.device_id = some healthcheck →
    ((requestConnection s req now current_hour current_dow o cid).1 =
        .httpError 503 "Health check data is stale (older than 5 minutes)" ↔
      now - healthcheck.reported_at > 60 * st.HEALTH_CHECK_MAX_AGE_MINUTES)

/-- Concrete active device used in counterexamples and witnesses. -/
def cDevice : Device := { device_id := "d1", status := "active" }

/-- Concrete user used in counterexamples and witnesses. -/
def cUser : User :=
  { user_id := "u1", email := "u1@example.com", role := "developer",
    status := "active" }

/-- Concrete health check (reported at time 0) used in counterexamples
and witnesses. -/
def cHealth : HealthCheck :=
  { device_id := "d1", cpu_usage := some 45, memory_usage := some 60,
    os_patches_current := some true, antivirus_enabled := some true,
    disk_encrypted := some true, reported_at := 0 }

/-- Concrete store with one active device, one user and one health
check, used in counterexamples and witnesses. -/
def cStore : Store :=
  { devices := [cDevice], users := [cUser], healthchecks := [cHealth],
    connections := [], audit_logs := [] }

/-- Concrete connection request used in counterexamples and witnesses. -/
def cReq : ConnectionRequest :=
  { device_id := "d1", user_id := "u1", service_name := "db" }

/-- Settings instance with a one-minute configured maximum age. -/
def cSettings : Settings := { HEALTH_CHECK_MAX_AGE_MINUTES := 1 }

/-- C3 counterexample: with `HEALTH_CHECK_MAX_AGE_MINUTES = 1` and a
health check aged 2 minutes, the claim demands a stale 503, but the
code compares against a hard-coded `timedelta(minutes=5)` and proceeds
to policy evaluation — the setting is never read by the gate. -/
theorem freshness_gate_ignores_settings :
    (requestConnection cStore cReq 120 0 1 (.raiseTimeout "t") "c1").1 =
      .httpError 403 "Access denied by policy" ∧
    (120 : Int) - cHealth.reported_at >
      60 * cSettings.HEALTH_CHECK_MAX_AGE_MINUTES ∧
    ¬ freshnessUsesConfiguredMax := by
  refine ⟨rfl, by decide, fun h => ?_⟩
  have hiff := h cSettings cStore cReq 120 0 1 (.raiseTimeout "t") "c1"
    cDevice cUser cHealth rfl rfl rfl rfl
  have h503 := hiff.mpr (by decide)
  have h403 : (requestConnection cStore cReq 120 0 1 (.raiseTimeout "t") "c1").1 =
      .httpError 403 "Access denied by policy" := rfl
  rw [h403] at h503
  simp at h503

/-- C3 (amended): the freshness gate compares the health-check age
against a hard-coded five-minute constant — `HEALTH_CHECK_MAX_AGE_MINUTES`
is not consulted, though its default (5) coincides with the constant —
and the comparison is strict `>`: given the earlier gates pass, the
request is rejected as stale exactly when the age strictly exceeds
5 minutes, so an age of exactly 5 minutes 0 seconds passes. -/
theorem freshness_boundary_hardcoded (s : Store) (req : ConnectionRequest)
    (now current_hour current_dow : Int) (o : HttpOutcome) (cid : String)
    (device : Device) (user : User) (healthcheck : HealthCheck)
    (hd : findDevice s req.device_id = some device)
    (hstat : device.status = "active")
    (hu : findUser s req.user_id = some user)
    (hhc : latestHealthCheck s req.device_id = some healthcheck) :
    ((requestConnection s req now current_hour current_dow o cid).1 =
        .httpError 503 "Health check data is stale (older than 5 minutes)" ↔
      now - healthcheck.reported_at > 5 * 60) ∧
    5 * 60 = 60 * defaultSettings.HEALTH_CHECK_MAX_AGE_MINUTES ∧
    (now - healthcheck.reported_at = 5 * 60 →
      (requestConnection s req now current_hour current_dow o cid).1 ≠
        .httpError 503 "Health check data is stale (older than 5 minutes)") := by
  have hiff : (requestConnection s req now current_hour current_dow o cid).1 =
      .httpError 503 "Health check data is stale (older than 5 minutes)" ↔
      now - healthcheck.reported_at > 5 * 60 := by
    constructor
    · intro heq
      by_contra hfresh
      obtain ⟨pr, hev⟩ := evaluatePolicy_total
        (buildOpaInput device user healthcheck req current_hour current_dow) o
      have hrun := requestConnection_run s req now current_hour current_dow o cid
        device user healthcheck hd hstat hu hhc hfresh
      rw [hev] at hrun
      obtain ⟨hout, _⟩ := requestConnectionFinish_cases s req pr cid now
      rw [hrun] at heq
      rcases hout with ⟨h403, _⟩ | ⟨resp, hresp, _⟩
      · rw [h403] at heq
        simp at heq
      · rw [hresp] at heq
        exact ReqOutcome.noConfusion heq
    · intro hstale
      rw [requestConnection_stale s req now current_hour current_dow o cid
        device user healthcheck hd hstat hu hhc hstale]
  refine ⟨hiff, by decide, fun hb heq => ?_⟩
  have := hiff.mp heq
  omega

/-! ## Connection lifecycle lemmas -/

/-- Row invariant of the Connection table: `terminated_at` is non-null
iff the row status is "terminated". -/
def connRowInvariant (c : Connection) : Prop :=
  c.terminated_at ≠ none ↔ c.status = "terminated"

/-- Updating the matching row preserves and transforms the result of
`find?` on the connection list. -/
theorem find?_map_terminated (l : List Connection) (cid : String) (now : Int)
    (c : Connection)
    (h : l.find? (fun x => x.connection_id == cid) = some c) :
    (l.map (fun x => if x.connection_id == cid
        then { x with status := "terminated", terminated_at := some now }
        else x)).find? (fun x => x.connection_id == cid) =
      some { c with status := "terminated", terminated_at := some now } := by
  induction l with
  | nil => cases h
  | cons a l' ih =>
    cases ha : a.connection_id == cid with
    | true =>
      rw [@List.find?_cons_of_pos _ (fun x : Connection => x.connection_id == cid)
        a l' ha] at h
      injection h with h
      subst h
      simp only [List.map_cons]
      rw [if_pos ha]
      exact @List.find?_cons_of_pos _
        (fun x : Connection => x.connection_id == cid) _ _ ha
    | false =>
      rw [@List.find?_cons_of_neg _ (fun x : Connection => x.connection_id == cid)
        a l' (by simp [ha])] at h
      simp only [List.map_cons]
      rw [if_neg (by simp [ha])]
      rw [@List.find?_cons_of_neg _ (fun x : Connection => x.connection_id == cid)
        a _ (by simp [ha])]
      exact ih h

/-- Every connection row in the store after `request_connection` is
either an old row or a freshly inserted "established" row with a null
`terminated_at`. -/
theorem requestConnection_conn_mem (s : Store) (req : ConnectionRequest)
    (now current_hour current_dow : Int) (o : HttpOutcome) (cid : String)
    (x : Connection)
    (hx : x ∈ (requestConnection s req now current_hour current_dow o cid).2.connections) :
    x ∈ s.connections ∨ (x.status = "established" ∧ x.terminated_at = none) := by
  simp only [requestConnection] at hx
  split at hx
  · exact Or.inl hx
  · split at hx
    · exact Or.inl hx
    · split at hx
      · exact Or.inl hx
      · split at hx
        · exact Or.inl hx
        · split at hx
          · exact Or.inl hx
          · split at hx
            · exact Or.inl hx
            · simp only [requestConnectionFinish] at hx
              split at hx
              · exact Or.inl hx
              · rcases List.mem_append.mp hx with hx | hx
                · exact Or.inl hx
                · rw [List.mem_singleton.mp hx]
                  exact Or.inr ⟨rfl, rfl⟩

/-! ## Claim C6 -/

/-- C6: a connection transitions established → terminated exactly once:
the first `terminate_connection` succeeds and sets status and
terminated-at; a second attempt on the same id returns 400 and changes
nothing; and the invariant "terminated-at non-null iff status is
terminated" is preserved by termination and by grant creation. -/
theorem terminate_single_transition (s : Store) (cid : String) (now now2 : Int)
    (c : Connection) (hfind : findConnection s cid = some c)
    (hst : c.status = "established") :
    (terminateConnection s cid now).1 = .ok "Connection terminated" cid ∧
    findConnection (terminateConnection s cid now).2 cid =
      some { c with status := "terminated", terminated_at := some now } ∧
    (terminateConnection (terminateConnection s cid now).2 cid now2).1 =
      .httpError 400 "Connection already terminated" ∧
    (terminateConnection (terminateConnection s cid now).2 cid now2).2 =
      (terminateConnection s cid now).2 ∧
    ((∀ x ∈ s.connections, connRowInvariant x) →
      ∀ x ∈ (terminateConnection s cid now).2.connections, connRowInvariant x) ∧
    (∀ (s' : Store) (req : ConnectionRequest) (now' ch cd : Int)
        (o : HttpOutcome) (cid' : String),
      (∀ x ∈ s'.connections, connRowInvariant x) →
      ∀ x ∈ (requestConnection s' req now' ch cd o cid').2.connections,
        connRowInvariant x) := by
  have h1 : terminateConnection s cid now =
      (.ok "Connection terminated" cid,
       { s with connections := s.connections.map (fun x =>
           if x.connection_id == cid
           then { x with status := "terminated", terminated_at := some now }
           else x) }) := by
    unfold terminateConnection
    simp only [hfind]
    rw [if_neg (by simp [hst])]
  have hfind2 : findConnection (terminateConnection s cid now).2 cid =
      some { c with status := "terminated", terminated_at := some now } := by
    rw [h1]
    exact find?_map_terminated s.connections cid now c hfind
  have h2 : ∀ s2 : Store, findConnection s2 cid =
      some { c with status := "terminated", terminated_at := some now } →
      terminateConnection s2 cid now2 =
        (.httpError 400 "Connection already terminated", s2) := by
    intro s2 hf
    unfold terminateConnection
    simp only [hf]
    rw [if_pos (by rfl)]
  refine ⟨by rw [h1], hfind2, by rw [h2 _ hfind2], by rw [h2 _ hfind2], ?_, ?_⟩
  · intro hinv x hx
    rw [h1] at hx
    simp only [List.mem_map] at hx
    obtain ⟨y, hy, rfl⟩ := hx
    cases hyc : y.connection_id == cid with
    | true =>
      simp [connRowInvariant]
    | false =>
      simpa using hinv y hy
  · intro s' req now' ch cd o cid' hinv x hx
    rcases requestConnection_conn_mem s' req now' ch cd o cid' x hx with hold | hnew
    · exact hinv x hold
    · unfold connRowInvariant
      rw [hnew.1, hnew.2]
      simp

/-! ## Claim C9 -/

/-- Selecting by user id from two pointwise-related user tables (same
ids, emails and roles) yields related results. -/
theorem findUser_forall2 (uid : String) (l1 l2 : List User)
    (h : List.Forall₂ (fun u1 u2 => u1.user_id = u2.user_id ∧
      u1.email = u2.email ∧ u1.role = u2.role) l1 l2) :
    (l1.find? (fun u => u.user_id == uid) = none ∧
     l2.find? (fun u => u.user_id == uid) = none) ∨
    (∃ u1 u2, l1.find? (fun u => u.user_id == uid) = some u1 ∧
      l2.find? (fun u => u.user_id == uid) = some u2 ∧
      u1.user_id = u2.user_id ∧ u1.email = u2.email ∧ u1.role = u2.role) := by
  induction h with
  | nil => exact Or.inl ⟨rfl, rfl⟩
  | cons hr hrest ih =>
    rename_i a b l1' l2'
    cases ha : a.user_id == uid with
    | true =>
      have hb : (b.user_id == uid) = true := by rw [← hr.1]; exact ha
      exact Or.inr ⟨a, b,
        @List.find?_cons_of_pos _ (fun u : User => u.user_id == uid) a l1' ha,
        @List.find?_cons_of_pos _ (fun u : User => u.user_id == uid) b l2' hb,
        hr⟩
    | false =>
      have hb : ¬ (b.user_id == uid) = true := by rw [← hr.1]; simp [ha]
      rw [@List.find?_cons_of_neg _ (fun u : User => u.user_id == uid) a l1'
          (by simp [ha]),
        @List.find?_cons_of_neg _ (fun u : User => u.user_id == uid) b l2' hb]
      exact ih

/-- C9: the pipeline is independent of `user.status`.  For two stores
that agree on devices, health checks, connections and audit logs, and
whose user tables agree pointwise on id, email and role (status
arbitrary), the HTTP outcome, the resulting connection rows, the
resulting audit rows, and the OPA input document are all identical. -/
theorem user_status_noninterference (s1 s2 : Store) (req : ConnectionRequest)
    (now current_hour current_dow : Int) (o : HttpOutcome) (cid : String)
    (hdev : s1.devices = s2.devices)
    (hhcs : s1.healthchecks = s2.healthchecks)
    (hconn : s1.connections = s2.connections)
    (haud : s1.audit_logs = s2.audit_logs)
    (husers : List.Forall₂ (fun u1 u2 => u1.user_id = u2.user_id ∧
      u1.email = u2.email ∧ u1.role = u2.role) s1.users s2.users) :
    (requestConnection s1 req now current_hour current_dow o cid).1 =
      (requestConnection s2 req now current_hour current_dow o cid).1 ∧
    (requestConnection s1 req now current_hour current_dow o cid).2.connections =
      (requestConnection s2 req now current_hour current_dow o cid).2.connections ∧
    (requestConnection s1 req now current_hour current_dow o cid).2.audit_logs =
      (requestConnection s2 req now current_hour current_dow o cid).2.audit_logs ∧
    (∀ device u1 u2 healthcheck,
      findUser s1 req.user_id = some u1 → findUser s2 req.user_id = some u2 →
      buildOpaInput device u1 healthcheck req current_hour current_dow =
        buildOpaInput device u2 healthcheck req current_hour current_dow) := by
  have hfd : findDevice s1 req.device_id = findDevice s2 req.device_id := by
    unfold findDevice; rw [hdev]
  have hfh : latestHealthCheck s1 req.device_id =
      latestHealthCheck s2 req.device_id := by
    unfold latestHealthCheck; rw [hhcs]
  have husersEq : ∀ device u1 u2 healthcheck,
      findUser s1 req.user_id = some u1 → findUser s2 req.user_id = some u2 →
      buildOpaInput device u1 healthcheck req current_hour current_dow =
        buildOpaInput device u2 healthcheck req current_hour current_dow := by
    intro device u1 u2 healthcheck hu1 hu2
    rcases findUser_forall2 req.user_id s1.users s2.users husers with
      ⟨hn1, _⟩ | ⟨v1, v2, hv1, hv2, hid, hemail, hrole⟩
    · rw [show findUser s1 req.user_id = s1.users.find?
        (fun u => u.user_id == req.user_id) from rfl, hn1] at hu1
      cases hu1
    · rw [show findUser s1 req.user_id = s1.users.find?
        (fun u => u.user_id == req.user_id) from rfl, hv1] at hu1
      rw [show findUser s2 req.user_id = s2.users.find?
        (fun u => u.user_id == req.user_id) from rfl, hv2] at hu2
      injection hu1 with hu1
      injection hu2 with hu2
      subst hu1; subst hu2
      unfold buildOpaInput
      rw [hid, hemail, hrole]
  refine ⟨?_, ?_, ?_, husersEq⟩ <;>
  · cases hd : findDevice s2 req.device_id with
    | none =>
      have hr1 : requestConnection s1 req now current_hour current_dow o cid =
          (.httpError 404 "Device not found", s1) := by
        unfold requestConnection
        simp only [hfd.trans hd]
      have hr2 : requestConnection s2 req now current_hour current_dow o cid =
          (.httpError 404 "Device not found", s2) := by
        unfold requestConnection
        simp only [hd]
      simp [hr1, hr2, hconn, haud]
    | some device =>
      cases hstat : device.status == "active" with
      | false =>
        have hstat' : device.status ≠ "active" := by simpa using hstat
        have hr1 : requestConnection s1 req now current_hour current_dow o cid =
            (.httpError 403 "Device is not active", s1) := by
          unfold requestConnection
          simp only [hfd.trans hd]
          rw [if_pos (by simp [bne_iff_ne]; exact hstat')]
        have hr2 : requestConnection s2 req now current_hour current_dow o cid =
            (.httpError 403 "Device is not active", s2) := by
          unfold requestConnection
          simp only [hd]
          rw [if_pos (by simp [bne_iff_ne]; exact hstat')]
        simp [hr1, hr2, hconn, haud]
      | true =>
        have hstat' : device.status = "active" := by simpa using hstat
        rcases findUser_forall2 req.user_id s1.users s2.users husers with
          ⟨hn1, hn2⟩ | ⟨u1, u2, hu1, hu2, hid, hemail, hrole⟩
        · have hr1 : requestConnection s1 req now current_hour current_dow o cid =
              (.httpError 404 "User not found", s1) := by
            unfold requestConnection
            simp only [hfd.trans hd, show findUser s1 req.user_id = none from hn1]
            rw [if_neg (by simp [hstat'])]
          have hr2 : requestConnection s2 req now current_hour current_dow o cid =
              (.httpError 404 "User not found", s2) := by
            unfold requestConnection
            simp only [hd, show findUser s2 req.user_id = none from hn2]
            rw [if_neg (by simp [hstat'])]
          simp [hr1, hr2, hconn, haud]
        · cases hhc2 : latestHealthCheck s2 req.device_id with
          | none =>
            have hr1 : requestConnection s1 req now current_hour current_dow o cid =
                (.httpError 503 "No health check data available for device", s1) := by
              unfold requestConnection
              simp only [hfd.trans hd, show findUser s1 req.user_id = some u1 from hu1,
                hfh.trans hhc2]
              rw [if_neg (by simp [hstat'])]
            have hr2 : requestConnection s2 req now current_hour current_dow o cid =
                (.httpError 503 "No health check data available for device", s2) := by
              unfold requestConnection
              simp only [hd, show findUser s2 req.user_id = some u2 from hu2, hhc2]
              rw [if_neg (by simp [hstat'])]
            simp [hr1, hr2, hconn, haud]
          | some healthcheck =>
            by_cases hfr : now - healthcheck.reported_at > 5 * 60
            · have hs1 := requestConnection_stale s1 req now current_hour
                current_dow o cid device u1 healthcheck (hfd.trans hd) hstat' hu1
                (hfh.trans hhc2) hfr
              have hs2 := requestConnection_stale s2 req now current_hour
                current_dow o cid device u2 healthcheck hd hstat' hu2 hhc2 hfr
              simp [hs1, hs2, hconn, haud]
            · have hrun1 := requestConnection_run s1 req now current_hour
                current_dow o cid device u1 healthcheck (hfd.trans hd) hstat' hu1
                (hfh.trans hhc2) hfr
              have hrun2 := requestConnection_run s2 req now current_hour
                current_dow o cid device u2 healthcheck hd hstat' hu2 hhc2 hfr
              have hin : buildOpaInput device u1 healthcheck req current_hour
                  current_dow = buildOpaInput device u2 healthcheck req
                  current_hour current_dow :=
                husersEq device u1 u2 healthcheck hu1 hu2
              rw [hin] at hrun1
              rw [hrun1, hrun2]
              cases hev : evaluatePolicy
                  (buildOpaInput device u2 healthcheck req current_hour
                    current_dow) o with
              | error e =>
                simp [hev, hconn, haud]
              | ok pr =>
                simp only [hev]
                cases hden : pyEqStr (extractDecision pr) "deny" with
                | true =>
                  simp [requestConnectionFinish, hden, hconn, haud]
                | false =>
                  simp [requestConnectionFinish, hden, hconn, haud]

/-! ## Witness inputs -/

/-- The empty store, for witnesses. -/
def emptyStore : Store :=
  { devices := [], users := [], healthchecks := [], connections := [],
    audit_logs := [] }

/-- Store with a suspended device, for witnesses. -/
def cStoreInactive : Store :=
  { devices := [{ device_id := "d1", status := "suspended" }], users := [cUser],
    healthchecks := [cHealth], connections := [], audit_logs := [] }

/-- Store with an active device but no users, for witnesses. -/
def cStoreNoUser : Store :=
  { devices := [cDevice], users := [], healthchecks := [cHealth],
    connections := [], audit_logs := [] }

/-- Store with an active device and a user but no health data, for
witnesses. -/
def cStoreNoHealth : Store :=
  { devices := [cDevice], users := [cUser], healthchecks := [],
    connections := [], audit_logs := [] }

/-- One established connection row, for the termination witness. -/
def cConn : Connection :=
  { connection_id := "c1", device_id := "d1", user_id := "u1",
    service_name := "db", status := "established", established_at := 0,
    terminated_at := none }

/-- Store holding only `cConn`, for the termination witness. -/
def cStoreConn : Store :=
  { devices := [], users := [], healthchecks := [], connections := [cConn],
    audit_logs := [] }

/-- Variant of `cStore` whose sole user has a different status, for the
noninterference witness. -/
def cStoreDisabled : Store :=
  { devices := [cDevice], users := [{ cUser with status := "disabled" }],
    healthchecks := [cHealth], connections := [], audit_logs := [] }

/-! ## Witness theorems -/

/-- C1 witness: fail-closed behaviour at a concrete store and a
concrete timeout outcome. -/
theorem policy_failure_fail_closed_witness :
    (∃ err, evaluatePolicy .null (.raiseTimeout "t") =
      .ok [("allowed", .bool false), ("decision", .str "deny"),
           ("error", .str err)]) ∧
    (requestConnection cStore cReq 100 10 3 (.raiseTimeout "t") "c1").1 =
      .httpError 403 "Access denied by policy" ∧
    ((requestConnection cStore cReq 100 10 3 (.raiseTimeout "t") "c1").2).connections =
      cStore.connections :=
  policy_failure_fail_closed .null (.raiseTimeout "t") rfl cStore cReq
    100 10 3 "c1" rfl

/-- C2 witness: each validation gate exercised at a concrete store. -/
theorem gate_order_short_circuit_witness :
    requestConnection emptyStore cReq 0 0 1 (.raiseTimeout "t") "c1" =
      (.httpError 404 "Device not found", emptyStore) ∧
    requestConnection cStoreInactive cReq 0 0 1 (.raiseTimeout "t") "c1" =
      (.httpError 403 "Device is not active", cStoreInactive) ∧
    requestConnection cStoreNoUser cReq 0 0 1 (.raiseTimeout "t") "c1" =
      (.httpError 404 "User not found", cStoreNoUser) ∧
    requestConnection cStoreNoHealth cReq 0 0 1 (.raiseTimeout "t") "c1" =
      (.httpError 503 "No health check data available for device",
       cStoreNoHealth) ∧
    requestConnection cStore cReq 301 0 1 (.raiseTimeout "t") "c1" =
      (.httpError 503 "Health check data is stale (older than 5 minutes)",
       cStore) ∧
    (requestConnection emptyStore cReq 0 0 1 (.raiseTimeout "t") "c1").1 =
      .httpError 404 "Device not found" := by
  obtain ⟨h1, h2, h3, h4, h5, h6⟩ := gate_order_short_circuit
  exact ⟨h1 emptyStore cReq 0 0 1 (.raiseTimeout "t") "c1" rfl,
    h2 cStoreInactive cReq 0 0 1 (.raiseTimeout "t") "c1" _ rfl (by decide),
    h3 cStoreNoUser cReq 0 0 1 (.raiseTimeout "t") "c1" _ rfl rfl rfl,
    h4 cStoreNoHealth cReq 0 0 1 (.raiseTimeout "t") "c1" _ _ rfl rfl rfl rfl,
    h5 cStore cReq 301 0 1 (.raiseTimeout "t") "c1" _ _ _ rfl rfl rfl rfl
      (by decide),
    h6 emptyStore cReq 0 0 1 (.raiseTimeout "t") "c1" rfl rfl⟩

/-- C3 witness: both sides of the five-minute boundary at a concrete
store. -/
theorem freshness_boundary_hardcoded_witness :
    ((requestConnection cStore cReq 301 0 1 (.raiseTimeout "t") "c1").1 =
        .httpError 503 "Health check data is stale (older than 5 minutes)" ↔
      (301 : Int) - cHealth.reported_at > 5 * 60) ∧
    (5 : Int) * 60 = 60 * defaultSettings.HEALTH_CHECK_MAX_AGE_MINUTES ∧
    ((300 : Int) - cHealth.reported_at = 5 * 60 →
      (requestConnection cStore cReq 300 0 1 (.raiseTimeout "t") "c1").1 ≠
        .httpError 503 "Health check data is stale (older than 5 minutes)") := by
  have h1 := freshness_boundary_hardcoded cStore cReq 301 0 1 (.raiseTimeout "t")
    "c1" cDevice cUser cHealth rfl rfl rfl rfl
  have h2 := freshness_boundary_hardcoded cStore cReq 300 0 1 (.raiseTimeout "t")
    "c1" cDevice cUser cHealth rfl rfl rfl rfl
  exact ⟨h1.1, h1.2.1, h2.2.2⟩

/-- C4 witness: the audit write at a concrete store with a concrete
allow response. -/
theorem audit_written_exactly_once_witness :
    ∃ device user healthcheck pr,
      findDevice cStore cReq.device_id = some device ∧
      findUser cStore cReq.user_id = some user ∧
      latestHealthCheck cStore cReq.device_id = some healthcheck ∧
      evaluatePolicy (buildOpaInput device user healthcheck cReq 10 3)
        (.response true "OK" (some (.obj [("result", .bool true)]))) = .ok pr ∧
      ((requestConnection cStore cReq 100 10 3
        (.response true "OK" (some (.obj [("result", .bool true)]))) "c1").2).audit_logs =
        cStore.audit_logs ++ [auditRow cReq pr] ∧
      auditRow cReq pr =
        { event_type := "connection_request"
          action := "request_connection"
          decision := extractDecision pr
          device_id := some cReq.device_id
          user_id := some cReq.user_id
          service_name := some cReq.service_name
          reason := none
          policy_version := some "v1.0"
          extra_data := some (.obj [("opa_result", .obj pr)]) } ∧
      ((requestConnection cStore cReq 100 10 3
          (.response true "OK" (some (.obj [("result", .bool true)]))) "c1").1 =
          .httpError 403 "Access denied by policy" ∨
        ∃ resp, (requestConnection cStore cReq 100 10 3
          (.response true "OK" (some (.obj [("result", .bool true)]))) "c1").1 =
          .granted resp ∧ resp.status = "authorized") :=
  audit_written_exactly_once cStore cReq 100 10 3
    (.response true "OK" (some (.obj [("result", .bool true)]))) "c1" rfl

/-- C5 witness: gate failure (empty store) has no side effects. -/
theorem gate_failure_no_side_effects_witness :
    (∀ o o', requestConnection emptyStore cReq 0 0 1 o "c1" =
      requestConnection emptyStore cReq 0 0 1 o' "c1") ∧
    (∀ o, (requestConnection emptyStore cReq 0 0 1 o "c1").2 = emptyStore) ∧
    (∀ o, ∃ status detail,
      (requestConnection emptyStore cReq 0 0 1 o "c1").1 =
        .httpError status detail) :=
  gate_failure_no_side_effects emptyStore cReq 0 0 1 "c1" rfl

/-- C6 witness: double termination at a concrete store. -/
theorem terminate_single_transition_witness :
    (terminateConnection cStoreConn "c1" 10).1 =
      .ok "Connection terminated" "c1" ∧
    findConnection (terminateConnection cStoreConn "c1" 10).2 "c1" =
      some { cConn with status := "terminated", terminated_at := some 10 } ∧
    (terminateConnection (terminateConnection cStoreConn "c1" 10).2 "c1" 20).1 =
      .httpError 400 "Connection already terminated" ∧
    (terminateConnection (terminateConnection cStoreConn "c1" 10).2 "c1" 20).2 =
      (terminateConnection cStoreConn "c1" 10).2 := by
  have h := terminate_single_transition cStoreConn "c1" 10 20 cConn rfl rfl
  exact ⟨h.1, h.2.1, h.2.2.1, h.2.2.2.1⟩

/-- C9 witness: a store and its user-status variant produce identical
results. -/
theorem user_status_noninterference_witness :
    (requestConnection cStore cReq 100 10 3 (.raiseTimeout "t") "c1").1 =
      (requestConnection cStoreDisabled cReq 100 10 3 (.raiseTimeout "t") "c1").1 ∧
    (requestConnection cStore cReq 100 10 3 (.raiseTimeout "t") "c1").2.connections =
      (requestConnection cStoreDisabled cReq 100 10 3
        (.raiseTimeout "t") "c1").2.connections ∧
    (requestConnection cStore cReq 100 10 3 (.raiseTimeout "t") "c1").2.audit_logs =
      (requestConnection cStoreDisabled cReq 100 10 3
        (.raiseTimeout "t") "c1").2.audit_logs := by
  have h := user_status_noninterference cStore cStoreDisabled cReq 100 10 3
    (.raiseTimeout "t") "c1" rfl rfl rfl rfl
    (List.Forall₂.cons ⟨rfl, rfl, rfl⟩ List.Forall₂.nil)
  exact ⟨h.1, h.2.1, h.2.2.1⟩

end EdgeMesh
